import Mathlib

/-!
Shallow embedding of the core of the medusa `web-form.c` module
(src/src/modsrc/web-form.c): the HTTP status-line parser, header scanner,
URL encoder, Location path resolver, request parameter builder, the
per-attempt protocol handler `tryLogin`, and the INITIALIZE step of
`initModule`.

C strings are modelled as `List Char` (`CStr`); a `char *` that may be
NULL is modelled as `Option CStr`.  Machine integers are modelled as
`Nat`/`Int`.  The transport (medusaSend / medusaReceiveLine) is modelled
by a `sendOk : Bool` flag and the list `recv : List CStr` of successive
buffers that `medusaReceiveLine` returns (the list being exhausted models
a NULL return).
-/

namespace WebForm

/-- C strings, one entry per byte (ASCII; the listed claims only exercise
ASCII content at this level). -/
abbrev CStr := List Char

/-- The module state constants of the medusa host (MSTATE_*). -/
inductive ModuleStateT where
  | MSTATE_INITIALIZE
  | MSTATE_NEW
  | MSTATE_RUNNING
  | MSTATE_EXITING
  | MSTATE_COMPLETE
deriving DecidableEq

export ModuleStateT (MSTATE_INITIALIZE MSTATE_NEW MSTATE_RUNNING MSTATE_EXITING MSTATE_COMPLETE)

/-- Verdicts reported to the host (LOGIN_RESULT_*). -/
inductive LoginResultT where
  | LOGIN_RESULT_SUCCESS
  | LOGIN_RESULT_FAIL
  | LOGIN_RESULT_UNKNOWN
deriving DecidableEq

export LoginResultT (LOGIN_RESULT_SUCCESS LOGIN_RESULT_FAIL LOGIN_RESULT_UNKNOWN)

/-- Form type enum of web-form.h. -/
inductive FormTypeT where
  | FORM_GET
  | FORM_POST
  | FORM_UNKNOWN
deriving DecidableEq

export FormTypeT (FORM_GET FORM_POST FORM_UNKNOWN)

/-- Path type enum of web-form.h.  `PATHTYPE_UNKNOWN` is produced by
`_pathType` only for a NULL argument; since the model passes a `CStr`
(never NULL), the function below never returns it. -/
inductive PathTypeT where
  | PATHTYPE_ABSOLUTE
  | PATHTYPE_RELATIVE
  | PATHTYPE_URI
  | PATHTYPE_UNKNOWN
deriving DecidableEq

export PathTypeT (PATHTYPE_ABSOLUTE PATHTYPE_RELATIVE PATHTYPE_URI PATHTYPE_UNKNOWN)

/-- The HTTP status codes the module distinguishes (HttpStatusCodeT of
web-form.h; the named constants carry their standard numeric values
200/301/302/307/308/400/401/403/404, as also listed in the spec). -/
inductive HttpStatusCodeT where
  | HTTP_STATUS_PARSE_ERR
  | HTTP_STATUS_NOT_IMPL
  | HTTP_OK
  | HTTP_MOVED_PERMANENTLY
  | HTTP_FOUND
  | HTTP_TEMPORARY_REDIRECT
  | HTTP_PERMANENT_REDIRECT
  | HTTP_BAD_REQUEST
  | HTTP_UNAUTHORIZED
  | HTTP_FORBIDDEN
  | HTTP_NOT_FOUND
deriving DecidableEq

export HttpStatusCodeT (HTTP_STATUS_PARSE_ERR HTTP_STATUS_NOT_IMPL HTTP_OK
  HTTP_MOVED_PERMANENTLY HTTP_FOUND HTTP_TEMPORARY_REDIRECT HTTP_PERMANENT_REDIRECT
  HTTP_BAD_REQUEST HTTP_UNAUTHORIZED HTTP_FORBIDDEN HTTP_NOT_FOUND)

/-- ASCII tolower, as used by strcasestr and strncasecmp (C locale). -/
def toLowerC (c : Char) : Char :=
  if 'A' ≤ c ∧ c ≤ 'Z' then Char.ofNat (c.toNat + 32) else c

/-- Case-insensitive equality of two byte strings (C-locale). -/
def lowerEq (a b : CStr) : Bool :=
  a.map toLowerC = b.map toLowerC

/-- C `isspace` in the C locale: space, \t, \n, \v, \f, \r. -/
def isspaceB (c : Char) : Bool :=
  c = ' ' ∨ c = '\t' ∨ c = '\n' ∨ c.toNat = 11 ∨ c.toNat = 12 ∨ c = '\r'

/-- Models `strcasestr hay needle`: the suffix of `hay` starting at the
first case-insensitive occurrence of `needle`, or `none` when there is no
occurrence (C returns NULL). -/
def strcasestrDrop (hay needle : CStr) : Option CStr :=
  match hay with
  | [] => if (needle.map toLowerC).isPrefixOf ([] : CStr) then some [] else none
  | c :: t =>
      if (needle.map toLowerC).isPrefixOf ((c :: t).map toLowerC) then some (c :: t)
      else strcasestrDrop t needle

/-- Truth of `strcasestr hay needle` succeeding, i.e. `needle` occurs in
`hay` case-insensitively. -/
def containsCI (hay needle : CStr) : Bool :=
  (strcasestrDrop hay needle).isSome

/-- Models `strchr buf c` restricted to what `parseHttpStatusCode` needs:
the suffix of `buf` starting at the first space, or `none` (NULL). -/
def dropFromFirstSpace : CStr → Option CStr
  | [] => none
  | c :: t => if c = ' ' then some (c :: t) else dropFromFirstSpace t

/-- C `isdigit`: the byte is in `[0-9]` (codes 48 to 57). -/
def isDigitB (c : Char) : Bool :=
  decide (48 ≤ c.toNat) && decide (c.toNat ≤ 57)

/-- Value of a digit string read in base 10 (the digit-consuming core of
strtol). -/
def digitsVal (ds : CStr) : Nat :=
  ds.foldl (fun a c => 10 * a + (c.toNat - 48)) 0

/-- Models C `strtol(s, NULL, 10)`: skip isspace, optional sign, then
leading digits; no digits gives 0.  Overflow clamping to LONG_MAX and
LONG_MIN is not modelled; every value a clamp could produce is, like the
clamped value itself, outside the switch cases of `parseHttpStatusCode`,
so the observable status code is unaffected. -/
def strtol (s : CStr) : Int :=
  strtolScan (s.dropWhile isspaceB)
where
  /-- The sign-and-digits scan strtol performs after skipping leading
  whitespace. -/
  strtolScan : CStr → Int
    | [] => 0
    | c :: t =>
        if c = '-' then -(digitsVal (t.takeWhile isDigitB) : Int)
        else if c = '+' then (digitsVal (t.takeWhile isDigitB) : Int)
        else (digitsVal ((c :: t).takeWhile isDigitB) : Int)

/-- Models `parseHttpStatusCode` of web-form.c: NULL or space-free input
gives HTTP_STATUS_PARSE_ERR; otherwise strtol runs from the first space
and the switch keeps the nine known codes, sending everything else to
HTTP_STATUS_NOT_IMPL. -/
def parseHttpStatusCode (buf : Option CStr) : HttpStatusCodeT :=
  match buf with
  | none => HTTP_STATUS_PARSE_ERR
  | some s =>
      match dropFromFirstSpace s with
      | none => HTTP_STATUS_PARSE_ERR
      | some suffix =>
          let z := strtol suffix
          if z = 200 then HTTP_OK
          else if z = 301 then HTTP_MOVED_PERMANENTLY
          else if z = 302 then HTTP_FOUND
          else if z = 307 then HTTP_TEMPORARY_REDIRECT
          else if z = 308 then HTTP_PERMANENT_REDIRECT
          else if z = 400 then HTTP_BAD_REQUEST
          else if z = 401 then HTTP_UNAUTHORIZED
          else if z = 403 then HTTP_FORBIDDEN
          else if z = 404 then HTTP_NOT_FOUND
          else HTTP_STATUS_NOT_IMPL

/-- Models `_findHeaderValue header src prevPos` of web-form.c: find
`header` case-insensitively, skip it, skip linear whitespace, and copy
bytes up to the next CR or LF.  Returns the copied value together with
the rest of the buffer from the end-of-line position (the `*prevPos`
out-parameter).  The C end-of-line loop would run past the terminating
NUL if no CR or LF follows; the model stops at the end of the string. -/
def findHeaderValue (header src : CStr) : Option (CStr × CStr) :=
  match strcasestrDrop src header with
  | none => none
  | some suffix =>
      let afterWs := (suffix.drop header.length).dropWhile isspaceB
      let v := afterWs.takeWhile (fun c => ¬ (c = '\r' ∨ c = '\n'))
      some (v, afterWs.drop v.length)

/-- Models `findLocationHeaderValue` of web-form.c. -/
def findLocationHeaderValue (src : CStr) : Option CStr :=
  (findHeaderValue "\r\nLocation:".data src).map (fun p => p.1)

/-- The Set-Cookie extraction loop of `_setCookiesFromResponse`,
fuel-bounded: each successful find advances `prevPos` past the header
needle, so `src.length` iterations always suffice. -/
def collectSetCookieValues : Nat → CStr → List CStr
  | 0, _ => []
  | fuel + 1, src =>
      match findHeaderValue "\r\nSet-Cookie:".data src with
      | none => []
      | some (v, rest) => v :: collectSetCookieValues fuel rest

/-- Models `_setCookiesFromResponse`: the text appended to the cookie
jar, one `Cookie: <value>\r\n` line per Set-Cookie occurrence.  The
`COOKIE_HEADER` constant lives in web-form.h (not under src/); modelled
from the spec (4.F) as the literal `Cookie: `. -/
def setCookieLines (response : CStr) : CStr :=
  (collectSetCookieValues (response.length + 1) response).flatMap
    (fun v => "Cookie: ".data ++ v ++ "\r\n".data)

/-- BETWEEN checks of `urlencodeup`: `[a-z]`, `[A-Z]`, `[0-9]` on byte
values. -/
def isAlnumByte (c : Nat) : Bool :=
  (97 ≤ c ∧ c ≤ 122) ∨ (65 ≤ c ∧ c ≤ 90) ∨ (48 ≤ c ∧ c ≤ 57)

/-- Uppercase hexadecimal digit of a value below 16, as a byte. -/
def hexDigitUpper (n : Nat) : Nat :=
  if n < 10 then 48 + n else 55 + n

/-- Models `urlencodeup` of web-form.c on the byte sequence of the input
C string: alphanumeric bytes are copied, every other byte is emitted as
`%XX`.  The `%XX` formatting macro `URL_ENCODE_BYTE_FMT` lives in
web-form.h (not under src/); modelled from the spec (4.A): two-digit
uppercase hexadecimal of the byte. -/
def urlencodeup : List Nat → List Nat
  | [] => []
  | c :: rest =>
      (if isAlnumByte c then [c] else [37, hexDigitUpper (c / 16), hexDigitUpper (c % 16)])
        ++ urlencodeup rest

/-- The function `urlencodeup` transported to `CStr` via byte codes
(exact for the ASCII strings the claims exercise). -/
def urlencodeupC (s : CStr) : CStr :=
  (urlencodeup (s.map Char.toNat)).map Char.ofNat

/-- Claim-side (C7): value of an ASCII hex digit byte. -/
def hexVal (b : Nat) : Nat :=
  if 48 ≤ b ∧ b ≤ 57 then b - 48
  else if 65 ≤ b ∧ b ≤ 70 then b - 55
  else if 97 ≤ b ∧ b ≤ 102 then b - 87
  else 0

mutual

/-- Claim-side (spec 4.A and 8.1): percent-decoding.  A `%` followed by
two hex digits decodes to that byte; every other byte is copied. -/
def percentDecode : List Nat → List Nat
  | [] => []
  | c :: rest =>
      if c = 37 then percentDecodeEsc rest
      else c :: percentDecode rest
  termination_by l => 2 * l.length

/-- The bytes following a `%`: two hex digits give the decoded byte, a
truncated escape is copied verbatim. -/
def percentDecodeEsc : List Nat → List Nat
  | h :: l :: rest2 => (hexVal h * 16 + hexVal l) :: percentDecode rest2
  | [h] => [37, h]
  | [] => [37]
  termination_by l => 2 * l.length + 1

end

/-- Claim-side: the output alphabet `[A-Za-z0-9%]` asserted by C7. -/
def isUrlAllowedByte (c : Nat) : Bool :=
  isAlnumByte c ∨ c = 37

/-- Models `_pathType` of web-form.c on a non-NULL path: a leading `/`
gives ABSOLUTE; otherwise the path is URI exactly when its length
exceeds 4 and its first four bytes are `http` case-insensitively
(`strcasestr` on the temporarily NUL-terminated 4-byte prefix); every
other non-NULL path, the empty one included, is RELATIVE.
PATHTYPE_UNKNOWN arises only for a NULL argument, which the model
excludes. -/
def _pathType (path : CStr) : PathTypeT :=
  if path.head? = some '/' then PATHTYPE_ABSOLUTE
  else if 4 < path.length ∧ lowerEq (path.take 4) "http".data then PATHTYPE_URI
  else PATHTYPE_RELATIVE

/-- Modelled from the spec: `resolvePath` lives in
web-form-resolve-path.c, which is not under src/.  Spec 4.B: for a
RELATIVE target, merge the target with the directory of the base path
and collapse `.` and `..` segments (RFC 2616 section 5.1.2).  No claim
depends on the value this returns, only on the fields
`_resolveLocationPath` writes it to. -/
def resolvePath (basePath target : CStr) : CStr :=
  let dir := (basePath.reverse.dropWhile (fun c => ¬ c = '/')).reverse
  let segs := splitSlash (dir ++ target)
  '/' :: joinSlash (collapseSegs [] segs)
where
  /-- Split on `/`, dropping empty segments. -/
  splitSlash (s : CStr) : List CStr :=
    let raw := s.foldr
      (fun c acc =>
        match acc with
        | [] => if c = '/' then [[]] else [[c]]
        | seg :: rest => if c = '/' then [] :: seg :: rest else (c :: seg) :: rest)
      ([] : List CStr)
    raw.filter (fun seg => ¬ seg = [])
  /-- Collapse `.` and `..` with a segment stack. -/
  collapseSegs (acc : List CStr) : List CStr → List CStr
    | [] => acc.reverse
    | seg :: rest =>
        if seg = ".".data then collapseSegs acc rest
        else if seg = "..".data then collapseSegs acc.tail rest
        else collapseSegs (seg :: acc) rest
  /-- Rejoin segments with `/`. -/
  joinSlash : List CStr → CStr
    | [] => []
    | [seg] => seg
    | seg :: rest => seg ++ '/' :: joinSlash rest

/-- The per-invocation module configuration, as it stands after the
INITIALIZE state of `initModule` has run.  Fields that INITIALIZE always
leaves non-NULL and that no later code NULLs are plain `CStr`;
`resourcePath` stays an `Option` because the 200-OK restore copies
`resourcePathOld` (possibly NULL) into it; `formRest` stays an `Option`
because user-supplied FORM-DATA without a third token leaves it NULL. -/
structure ModuleDataT where
  resourcePath : Option CStr
  resourcePathOld : Option CStr
  hostHeader : CStr
  userAgentHeader : CStr
  denySignal : CStr
  formUserKey : CStr
  formPassKey : CStr
  formRest : Option CStr
  customHeaders : CStr
  cookieJar : CStr
  formType : FormTypeT
  changedRequestType : Bool
deriving DecidableEq

/-- Models `_resolveLocationPath` of web-form.c: truncate the Location
value at its first `?`, classify it with `_pathType`, and mutate the
configuration.  RELATIVE moves the old `resourcePath` into
`resourcePathOld`; URI overwrites the host header and falls through
(deliberately, per the source comment) into ABSOLUTE, which overwrites
`resourcePath` with the whole truncated target.  In the RELATIVE branch
the C code passes `resourcePath` to `resolvePath` unchecked; a NULL
there (reachable only through the 200-OK restore writing a NULL
`resourcePathOld` back) would be undefined behaviour in C and is
modelled as the empty base path. -/
def _resolveLocationPath (newLocation : CStr) (cfg : ModuleDataT) : ModuleDataT :=
  let t := newLocation.takeWhile (fun c => ¬ c = '?')
  match _pathType t with
  | PATHTYPE_RELATIVE =>
      { cfg with resourcePathOld := cfg.resourcePath
               , resourcePath := some (resolvePath (cfg.resourcePath.getD []) t) }
  | PATHTYPE_URI =>
      { cfg with hostHeader := t, resourcePath := some t }
  | PATHTYPE_ABSOLUTE =>
      { cfg with resourcePath := some t }
  | PATHTYPE_UNKNOWN => cfg

/-- Models `prepareRequestParamString` of web-form.c: URL-encode the
password (not the login), expand `formRest` to nothing when NULL or
empty and to `&<formRest>` otherwise, and build
`<userKey><login>&<passKey><encodedPassword><rest>` with a leading `?`
for GET.  The FORM_UNKNOWN arm calls `abort()`, modelled as `none`. -/
def prepareRequestParamString (cfg : ModuleDataT) (szLogin szPassword : CStr) :
    Option CStr :=
  let enc := urlencodeupC szPassword
  let rest : CStr :=
    match cfg.formRest with
    | some r => if r = [] then [] else '&' :: r
    | none => []
  match cfg.formType with
  | FORM_GET =>
      some ('?' :: (cfg.formUserKey ++ szLogin ++ '&' :: (cfg.formPassKey ++ enc ++ rest)))
  | FORM_POST =>
      some (cfg.formUserKey ++ szLogin ++ '&' :: (cfg.formPassKey ++ enc ++ rest))
  | FORM_UNKNOWN => none

/-- The deny-signal loop at the end of `tryLogin`: starting from the
buffer already in hand, scan successive receive buffers; stop at a NULL
buffer (list exhausted) or an empty one; report whether `strcasestr`
found the deny signal first. -/
def denyScanLoop (signal : CStr) : List CStr → Bool
  | [] => false
  | buf :: rest =>
      if buf = [] then false
      else if containsCI buf signal then true
      else denyScanLoop signal rest

/-- Result of one `tryLogin` round-trip: the mutated configuration, the
returned module state, and the record written through `setPassResult`
(password it was called with, and the `iResult` verdict), `none` when
`setPassResult` was not called. -/
structure TryLoginOut where
  cfg : ModuleDataT
  ret : ModuleStateT
  record : Option (CStr × LoginResultT)
deriving DecidableEq

/-- The restore step at the top of the 200-OK branch of `tryLogin`:
when `changedRequestType` is set, clear it, restore FORM_POST, move
`resourcePathOld` back into `resourcePath`, and empty the cookie jar. -/
def restoreAfterRedirect (cfg : ModuleDataT) : ModuleDataT :=
  if cfg.changedRequestType then
    { cfg with changedRequestType := false
             , formType := FORM_POST
             , resourcePath := cfg.resourcePathOld
             , resourcePathOld := none
             , cookieJar := [] }
  else cfg

/-- The 200-OK branch of `tryLogin`: restore after a method-changing
redirect chain, then run the deny-signal scan and record the verdict
for the password. -/
def tryLoginOk (cfg : ModuleDataT) (szPassword : CStr) (recv : List CStr) :
    TryLoginOut :=
  ⟨restoreAfterRedirect cfg, MSTATE_NEW,
    some (szPassword,
      if denyScanLoop cfg.denySignal recv then LOGIN_RESULT_FAIL else LOGIN_RESULT_SUCCESS)⟩

/-- The Set-Cookie accumulation step of the redirect branch. -/
def appendCookies (c0 : CStr) (cfg : ModuleDataT) : ModuleDataT :=
  { cfg with cookieJar := cfg.cookieJar ++ setCookieLines c0 }

/-- The method-mutation step of the redirect branch: for 301 and 302
received while the method is POST, set `changedRequestType` and switch
to GET. -/
def redirectDemote (st : HttpStatusCodeT) (cfg : ModuleDataT) : ModuleDataT :=
  if cfg.formType = FORM_POST ∧ (st = HTTP_MOVED_PERMANENTLY ∨ st = HTTP_FOUND) then
    { cfg with changedRequestType := true, formType := FORM_GET }
  else cfg

/-- The redirect branch of `tryLogin` (statuses 301, 302, 307, 308):
fail with an UNKNOWN record when no Location header is found; otherwise
resolve the location, append the Set-Cookie values to the jar, demote
POST to GET (setting `changedRequestType`) for 301 and 302 only, and
return MSTATE_NEW without recording a verdict. -/
def tryLoginRedirect (cfg : ModuleDataT) (szPassword : CStr)
    (st : HttpStatusCodeT) (c0 : CStr) : TryLoginOut :=
  match findLocationHeaderValue c0 with
  | none => ⟨cfg, MSTATE_EXITING, some (szPassword, LOGIN_RESULT_UNKNOWN)⟩
  | some loc =>
      ⟨redirectDemote st (appendCookies c0 (_resolveLocationPath loc cfg)),
        MSTATE_NEW, none⟩

/-- Models one `tryLogin` round-trip of web-form.c, with `_request`
inlined.  `sendOk` abstracts `medusaSend`; `recv` lists the successive
buffers `medusaReceiveLine` yields (exhaustion is a NULL return).  An
unknown form type makes `_request` return MSTATE_EXITING before a
request is built; since that value is nonzero, `tryLogin` then falls
through its NULL-buffer check into the status parse, which yields
HTTP_STATUS_PARSE_ERR and exits without a record.  A send failure
records LOGIN_RESULT_UNKNOWN inside `_request` and reaches MSTATE_EXITING
the same way.  The C switch on the status code is written as an
equivalent if-chain. -/
def tryLogin (cfg : ModuleDataT) (szLogin szPassword : CStr) (sendOk : Bool)
    (recv : List CStr) : TryLoginOut :=
  if cfg.formType = FORM_UNKNOWN then
    ⟨cfg, MSTATE_EXITING, none⟩
  else if ¬ sendOk then
    ⟨cfg, MSTATE_EXITING, some (szPassword, LOGIN_RESULT_UNKNOWN)⟩
  else
    match recv.head? with
    | none => ⟨cfg, MSTATE_EXITING, some (szPassword, LOGIN_RESULT_UNKNOWN)⟩
    | some c0 =>
        let st := parseHttpStatusCode (some c0)
        if st = HTTP_STATUS_PARSE_ERR then
          ⟨cfg, MSTATE_EXITING, none⟩
        else if st = HTTP_OK then
          tryLoginOk cfg szPassword recv
        else if st = HTTP_MOVED_PERMANENTLY ∨ st = HTTP_FOUND ∨
                st = HTTP_TEMPORARY_REDIRECT ∨ st = HTTP_PERMANENT_REDIRECT then
          tryLoginRedirect cfg szPassword st c0
        else
          ⟨cfg, MSTATE_EXITING, some (szPassword, LOGIN_RESULT_UNKNOWN)⟩

/-- One `strtok_r` step with delimiter set `delims`: skip leading
delimiters; if nothing is left return NULL, otherwise return the token
(up to the next delimiter) and the remainder after that delimiter. -/
def strtokSplit (delims : CStr) (s : CStr) : Option (CStr × CStr) :=
  let s1 := s.dropWhile (fun c => delims.contains c)
  match s1 with
  | [] => none
  | _ =>
      let tok := s1.takeWhile (fun c => ¬ delims.contains c)
      some (tok, (s1.drop tok.length).drop 1)

/-- The module options as they stand after the option loop of `go`:
each `-m KEY:VALUE` either left its field NULL or stored a value
(CUSTOM-HEADER occurrences are modelled already concatenated, as the
loop builds them). -/
structure OptionsT where
  resourcePath : Option CStr
  denySignal : Option CStr
  formData : Option CStr
  userAgentHeader : Option CStr
  customHeaders : Option CStr
deriving DecidableEq

/-- A FORM-DATA value on which the INITIALIZE code is defined: the
first `strtok_r` call must yield a method token (the C code passes its
result to `strncasecmp` unchecked, so an absent or all-`?` FORM-DATA
value would dereference NULL). -/
def FormDataWF (opts : OptionsT) : Bool :=
  match opts.formData with
  | none => true
  | some fd => (strtokSplit ['?'] fd).isSome

/-- Default user agent (`MODULE_DEFAULT_USER_AGENT` of web-form.h, not
under src/).  The spec only calls it "the tool default"; no claim
depends on its value, so it is modelled as an arbitrary fixed string. -/
def MODULE_DEFAULT_USER_AGENT : CStr := "Mozilla/5.0 (default)".data

/-- Default deny signal, modelled from the spec (4.G). -/
def MODULE_DEFAULT_DENY_SIGNAL : CStr := "Login incorrect".data

/-- Models the MSTATE_INITIALIZE case of `initModule`: apply defaults,
parse FORM-DATA with `strtok_r` (method up to `?`, user key and pass key
up to `&`, the rest verbatim; `strncasecmp` with `sizeof` of the literal
makes the method comparison an exact case-insensitive match), and repair
an unknown method or missing key by falling back to the default POST
configuration.  `host`/`port` feed the `<host>:<port>` host header
default.  `changedRequestType`, `resourcePathOld` and `cookieJar` come
out of `calloc` as false, NULL and (after the final default) empty. -/
def initializeConfig (opts : OptionsT) (host : CStr) (port : Nat) : ModuleDataT :=
  let parsed : FormTypeT × Option CStr × Option CStr × Option CStr :=
    match opts.formData with
    | none => (FORM_POST, some "username=".data, some "password=".data, some [])
    | some fd =>
        match strtokSplit ['?'] fd with
        | none =>
            -- C would crash here (see FormDataWF); value immaterial
            (FORM_UNKNOWN, none, none, none)
        | some (method, r1) =>
            let ft :=
              if lowerEq method "post".data then FORM_POST
              else if lowerEq method "get".data then FORM_GET
              else FORM_UNKNOWN
            match strtokSplit ['&'] r1 with
            | none => (ft, none, none, none)
            | some (uk, r2) =>
                match strtokSplit ['&'] r2 with
                | none => (ft, some uk, none, none)
                | some (pk, r3) =>
                    match strtokSplit [] r3 with
                    | none => (ft, some uk, some pk, none)
                    | some (fr, _) => (ft, some uk, some pk, some fr)
  let (ft0, uk0, pk0, fr0) := parsed
  let repaired := ft0 = FORM_UNKNOWN ∨ uk0 = none ∨ pk0 = none
  { resourcePath := some (opts.resourcePath.getD "/".data)
  , resourcePathOld := none
  , hostHeader := host ++ ':' :: (Nat.repr port).data
  , userAgentHeader := opts.userAgentHeader.getD MODULE_DEFAULT_USER_AGENT
  , denySignal := opts.denySignal.getD MODULE_DEFAULT_DENY_SIGNAL
  , formUserKey := if repaired then "username=".data else uk0.getD []
  , formPassKey := if repaired then "password=".data else pk0.getD []
  , formRest := if repaired then some [] else fr0
  , customHeaders := opts.customHeaders.getD []
  , cookieJar := []
  , formType := if repaired then FORM_POST else ft0
  , changedRequestType := false }

/-- A configuration produced by the INITIALIZE state (for some options
satisfying `FormDataWF`, host and port). -/
def InitialConfig (cfg : ModuleDataT) : Prop :=
  ∃ opts host port, FormDataWF opts = true ∧ initializeConfig opts host port = cfg

/-- One attempt round-trip, viewed as a transition on configurations. -/
def stepTo (cfg cfg2 : ModuleDataT) : Prop :=
  ∃ l p sendOk recv, (tryLogin cfg l p sendOk recv).cfg = cfg2

/-- Configurations reachable in the attempt state machine: an INITIALIZE
result followed by any number of `tryLogin` round-trips. -/
def ReachableConfig (cfg : ModuleDataT) : Prop :=
  ∃ cfg0, InitialConfig cfg0 ∧ Relation.ReflTransGen stepTo cfg0 cfg

/-- Claim-side (C2): the mapping the claim asserts for the numeric value
parsed from the status line. -/
def specStatusMap (z : Int) : HttpStatusCodeT :=
  if z = 200 then HTTP_OK
  else if z = 301 then HTTP_MOVED_PERMANENTLY
  else if z = 302 then HTTP_FOUND
  else if z = 307 then HTTP_TEMPORARY_REDIRECT
  else if z = 308 then HTTP_PERMANENT_REDIRECT
  else if z = 400 then HTTP_BAD_REQUEST
  else if z = 401 then HTTP_UNAUTHORIZED
  else if z = 403 then HTTP_FORBIDDEN
  else if z = 404 then HTTP_NOT_FOUND
  else HTTP_STATUS_NOT_IMPL

/-- Claim-side (C2): sufficient condition for the text after the first
space to be non-numeric for strtol, so that no digits are consumed:
after the leading whitespace run and an optional single sign there is no
digit. -/
def nonNumericAfterSpaces (rest : CStr) : Bool :=
  nonNumericScan (rest.dropWhile isspaceB)
where
  /-- After the whitespace run: an optional single sign, then no digit. -/
  nonNumericScan : CStr → Bool
    | [] => true
    | c :: t =>
        if c = '-' ∨ c = '+' then t.head?.all (fun d => !(isDigitB d))
        else !(isDigitB c)

/-- Claim-side (C6): the expansion of `formRest` asserted by the claim:
nothing when `formRest` is empty (or NULL), `&<formRest>` otherwise. -/
def restOf : Option CStr → CStr
  | none => []
  | some r => if r = [] then [] else '&' :: r

/-- Claim-side (C8): the target matches `^http` case-insensitively. -/
def startsWithHttpCI (t : CStr) : Bool :=
  decide (4 ≤ t.length) && lowerEq (t.take 4) "http".data

/-- A configuration produced by INITIALIZE with no module options, for
host `example.com` and port 80 (all defaults: POST to `/`). -/
def cfgDefault : ModuleDataT :=
  initializeConfig ⟨none, none, none, none, none⟩ "example.com".data 80

/-- A first response buffer with no space: its status line cannot be
parsed. -/
def recvBadLine : List CStr := ["BADLINE\r\n".data]

/-- A 307 response whose Location target `foo` is RELATIVE. -/
def recv307rel : List CStr :=
  ["HTTP/1.1 307 Temporary Redirect\r\nLocation: foo\r\n\r\n".data]

/-- The configuration after `cfgDefault` processes `recv307rel`: the 307
relative redirect stashes the old resource path without setting
`changedRequestType`. -/
def cfgStashed : ModuleDataT :=
  (tryLogin cfgDefault "u".data "p".data true recv307rel).cfg

/-- A 302 response with an absolute Location target. -/
def recv302 : List CStr := ["HTTP/1.1 302 Found\r\nLocation: /x\r\n\r\n".data]

/-- A configuration whose deny signal `200` also occurs in the status
line of a 200 response. -/
def cfgDeny200 : ModuleDataT :=
  initializeConfig ⟨none, some "200".data, none, none, none⟩ "example.com".data 80

/-- A 200 response whose status-line buffer contains `200` while every
later buffer (header/body separator and body) does not. -/
def recvDeny200 : List CStr :=
  ["HTTP/1.1 200 OK\r\n".data, "\r\n".data, "welcome\r\n".data]

/-- A mid-chain configuration: a 301/302 redirect has demoted POST to
GET and stashed the original path. -/
def cfgChanged : ModuleDataT :=
  { cfgDefault with changedRequestType := true, formType := FORM_GET
                  , resourcePathOld := some "/orig".data
                  , cookieJar := "Cookie: a=1\r\n".data }

/-- A plain 200 response with a body. -/
def recv200 : List CStr := ["HTTP/1.1 200 OK\r\n\r\n".data, "Welcome!\r\n".data]

/-- A GET-form configuration with a non-empty `formRest`. -/
def cfgGetForm : ModuleDataT :=
  initializeConfig ⟨none, none, some "get?user=&pass=&s=Y".data, none, none⟩
    "example.com".data 8080

/-! ## Helper lemmas -/

theorem dropFromFirstSpace_of_not_mem (s : CStr) (h : ' ' ∉ s) :
    dropFromFirstSpace s = none := by
  induction s with
  | nil => rfl
  | cons c t ih =>
      simp only [dropFromFirstSpace]
      rw [if_neg (fun (e : c = ' ') => h (e ▸ List.mem_cons_self c t))]
      exact ih (fun m => h (List.mem_cons_of_mem _ m))

theorem dropFromFirstSpace_append (pre rest : CStr) (h : ' ' ∉ pre) :
    dropFromFirstSpace (pre ++ ' ' :: rest) = some (' ' :: rest) := by
  induction pre with
  | nil => simp [dropFromFirstSpace]
  | cons c t ih =>
      rw [List.cons_append]
      simp only [dropFromFirstSpace]
      rw [if_neg (fun (e : c = ' ') => h (e ▸ List.mem_cons_self c t))]
      exact ih (fun m => h (List.mem_cons_of_mem _ m))

theorem isDigitB_not_isspaceB (c : Char) (h : isDigitB c = true) :
    isspaceB c = false := by
  simp only [isDigitB, Bool.and_eq_true, decide_eq_true_eq] at h
  simp only [isspaceB, decide_eq_false_iff_not]
  rintro (e | e | e | e | e | e)
  · subst e; exact absurd h (by decide)
  · subst e; exact absurd h (by decide)
  · subst e; exact absurd h (by decide)
  · omega
  · omega
  · subst e; exact absurd h (by decide)

theorem takeWhile_digits_append (ds rest : CStr) (hd : ∀ c ∈ ds, isDigitB c = true)
    (hr : rest.head?.all (fun d => !(isDigitB d)) = true) :
    (ds ++ rest).takeWhile isDigitB = ds := by
  induction ds with
  | nil =>
      cases rest with
      | nil => rfl
      | cons r t =>
          have hrd : isDigitB r = false := by simpa using hr
          simp [List.takeWhile_cons, hrd]
  | cons c t ih =>
      have hc : isDigitB c = true := hd c (List.mem_cons_self c t)
      rw [List.cons_append]
      simp only [List.takeWhile_cons, hc, if_true]
      rw [ih (fun x hx => hd x (List.mem_cons_of_mem _ hx))]

theorem strtol_space_digits (ds rest : CStr) (hne : ¬ ds = [])
    (hd : ∀ c ∈ ds, isDigitB c = true)
    (hr : rest.head?.all (fun d => !(isDigitB d)) = true) :
    strtol (' ' :: (ds ++ rest)) = (digitsVal ds : Int) := by
  cases ds with
  | nil => exact absurd rfl hne
  | cons d t =>
      have hdd : isDigitB d = true := hd d (List.mem_cons_self d t)
      have hdm : ¬ d = '-' := by
        intro e; subst e; exact absurd hdd (by decide)
      have hdp : ¬ d = '+' := by
        intro e; subst e; exact absurd hdd (by decide)
      have h1 : (' ' :: ((d :: t) ++ rest)).dropWhile isspaceB = d :: (t ++ rest) := by
        rw [List.cons_append, List.dropWhile_cons, if_pos (by decide : isspaceB ' ' = true),
          List.dropWhile_cons, isDigitB_not_isspaceB d hdd]
        simp
      unfold strtol
      rw [h1]
      simp only [strtol.strtolScan, hdm, hdp, if_false]
      rw [show d :: (t ++ rest) = (d :: t) ++ rest from rfl]
      rw [takeWhile_digits_append (d :: t) rest hd hr]

theorem strtol_space_nonNumeric (rest : CStr) (h : nonNumericAfterSpaces rest = true) :
    strtol (' ' :: rest) = 0 := by
  unfold strtol
  rw [List.dropWhile_cons, if_pos (by decide : isspaceB ' ' = true)]
  unfold nonNumericAfterSpaces at h
  cases hdw : rest.dropWhile isspaceB with
  | nil => rfl
  | cons c t =>
      rw [hdw] at h
      simp only [nonNumericAfterSpaces.nonNumericScan] at h
      by_cases hsign : c = '-' ∨ c = '+'
      · rw [if_pos hsign] at h
        cases t with
        | nil =>
            rcases hsign with e | e <;> subst e <;>
              simp [strtol.strtolScan, digitsVal]
        | cons d t2 =>
            have hd : isDigitB d = false := by simpa using h
            rcases hsign with e | e <;> subst e <;>
              simp [strtol.strtolScan, List.takeWhile_cons, hd, digitsVal]
      · rw [if_neg hsign] at h
        have hc : isDigitB c = false := by simpa using h
        push_neg at hsign
        simp [strtol.strtolScan, hsign.1, hsign.2, List.takeWhile_cons, hc, digitsVal]

/-! ## Claim C2 -/

/-- C2, amended.  `parseHttpStatusCode` maps an absent buffer and a
buffer without a space to HTTP_STATUS_PARSE_ERR; when a first space
exists, the digits after it (read by strtol) map through the table
200/301/302/307/308/400/401/403/404 to the corresponding kind and every
other numeric value to HTTP_STATUS_NOT_IMPL; and, correcting the claim,
non-numeric text after the first space yields HTTP_STATUS_NOT_IMPL (not
PARSE_ERROR), because strtol returns 0 and 0 falls into the default
switch arm. -/
theorem parseHttpStatusCode_amended :
    parseHttpStatusCode none = HTTP_STATUS_PARSE_ERR
    ∧ (∀ s : CStr, ' ' ∉ s → parseHttpStatusCode (some s) = HTTP_STATUS_PARSE_ERR)
    ∧ (∀ pre ds rest : CStr, ' ' ∉ pre → ¬ ds = [] → (∀ c ∈ ds, isDigitB c = true) →
        rest.head?.all (fun d => !(isDigitB d)) = true →
        parseHttpStatusCode (some (pre ++ ' ' :: (ds ++ rest))) =
          specStatusMap (digitsVal ds))
    ∧ (∀ pre rest : CStr, ' ' ∉ pre → nonNumericAfterSpaces rest = true →
        parseHttpStatusCode (some (pre ++ ' ' :: rest)) = HTTP_STATUS_NOT_IMPL) := by
  refine ⟨rfl, fun s h => ?_, fun pre ds rest hpre hne hd hr => ?_,
    fun pre rest hpre hnn => ?_⟩
  · simp only [parseHttpStatusCode, dropFromFirstSpace_of_not_mem s h]
  · simp only [parseHttpStatusCode, dropFromFirstSpace_append pre (ds ++ rest) hpre,
      strtol_space_digits ds rest hne hd hr]
    rfl
  · simp only [parseHttpStatusCode, dropFromFirstSpace_append pre rest hpre,
      strtol_space_nonNumeric rest hnn]
    rfl

/-- C2, counterexample to the claim as stated: `HTTP/1.1 abc` has
non-numeric text after the first space, yet the parser returns
HTTP_STATUS_NOT_IMPL, not the HTTP_STATUS_PARSE_ERR the claim asserts. -/
theorem parseHttpStatusCode_nonNumeric_counterexample :
    parseHttpStatusCode (some "HTTP/1.1 abc".data) = HTTP_STATUS_NOT_IMPL
    ∧ ¬ HTTP_STATUS_NOT_IMPL = HTTP_STATUS_PARSE_ERR := by
  exact ⟨by decide, by decide⟩

/-- C2, witness: the amended theorem applied at the concrete status line
`HTTP/1.1 404 NF`. -/
theorem parseHttpStatusCode_amended_witness :
    parseHttpStatusCode (some ("HTTP/1.1".data ++ ' ' :: ("404".data ++ " NF".data))) =
      specStatusMap (digitsVal "404".data) := by
  exact parseHttpStatusCode_amended.2.2.1 "HTTP/1.1".data "404".data " NF".data
    (by decide) (by decide) (by decide) (by decide)

/-! ## Claim C6 -/

/-- C6.  For a finalized form type (GET or POST) with
`changedRequestType` clear, `prepareRequestParamString` produces exactly
`<formUserKey><login>&<formPassKey><urlencode(password)><rest>`, with a
leading `?` for GET forms, the password URL-encoded, the login copied
verbatim, and `rest` empty for an empty (or absent) `formRest` and
`&<formRest>` otherwise. -/
theorem prepareRequestParamString_correct (cfg : ModuleDataT) (l p : CStr)
    (hft : ¬ cfg.formType = FORM_UNKNOWN) (hch : cfg.changedRequestType = false) :
    prepareRequestParamString cfg l p =
      some ((if cfg.formType = FORM_GET then ['?'] else []) ++
        (cfg.formUserKey ++ l ++ '&' :: (cfg.formPassKey ++ urlencodeupC p ++
          restOf cfg.formRest))) := by
  cases hf : cfg.formType
  case FORM_UNKNOWN => exact absurd hf hft
  case FORM_GET =>
      cases hr : cfg.formRest <;>
        simp [prepareRequestParamString, restOf, hf, hr]
  case FORM_POST =>
      cases hr : cfg.formRest <;>
        simp [prepareRequestParamString, restOf, hf, hr]

/-- C6, witness: the theorem applied to the GET configuration parsed
from `FORM-DATA:get?user=&pass=&s=Y`, login `bob`, password `a b`. -/
theorem prepareRequestParamString_correct_witness :
    prepareRequestParamString cfgGetForm "bob".data "a b".data =
      some "?user=bob&pass=a%20b&s=Y".data := by
  have h := prepareRequestParamString_correct cfgGetForm "bob".data "a b".data
    (by decide) (by decide)
  rw [h]
  decide

/-! ## Claim C7 -/

theorem hexDigitUpper_allowed (n : Nat) (h : n < 16) :
    isUrlAllowedByte (hexDigitUpper n) = true := by
  unfold isUrlAllowedByte hexDigitUpper isAlnumByte
  by_cases h10 : n < 10
  · rw [if_pos h10]
    simp only [decide_eq_true_eq]
    omega
  · rw [if_neg h10]
    simp only [decide_eq_true_eq]
    omega

theorem percentDecode_copy (c : Nat) (l : List Nat) (h : ¬ c = 37) :
    percentDecode (c :: l) = c :: percentDecode l := by
  simp only [percentDecode]
  rw [if_neg h]

theorem percentDecode_esc (h1 h2 : Nat) (l : List Nat) :
    percentDecode (37 :: h1 :: h2 :: l) =
      (hexVal h1 * 16 + hexVal h2) :: percentDecode l := by
  simp only [percentDecode, percentDecodeEsc]
  simp

theorem hexVal_hexDigitUpper (n : Nat) (h : n < 16) :
    hexVal (hexDigitUpper n) = n := by
  unfold hexVal hexDigitUpper
  by_cases h10 : n < 10
  · rw [if_pos h10, if_pos (by omega)]
    omega
  · rw [if_neg h10, if_neg (by omega), if_pos (by omega)]
    omega

theorem isAlnumByte_ne_37 (c : Nat) (h : isAlnumByte c = true) : ¬ c = 37 := by
  simp only [isAlnumByte, decide_eq_true_eq] at h
  omega

/-- C7.  On any byte string, `urlencodeup` emits only bytes in
`[A-Za-z0-9%]`, and percent-decoding its output restores the input
byte-for-byte (alphanumerics are copied, every other byte becomes `%`
plus its two-digit uppercase hexadecimal value, so the decoder inverts
it). -/
theorem urlencodeup_charset_roundtrip (s : List Nat) (h : ∀ b ∈ s, b < 256) :
    (urlencodeup s).all isUrlAllowedByte = true
    ∧ percentDecode (urlencodeup s) = s := by
  induction s with
  | nil => exact ⟨rfl, by simp [urlencodeup, percentDecode]⟩
  | cons c rest ih =>
      have hc : c < 256 := h c (List.mem_cons_self c rest)
      obtain ⟨iha, ihd⟩ := ih (fun b hb => h b (List.mem_cons_of_mem _ hb))
      by_cases ha : isAlnumByte c = true
      · have h37 : ¬ c = 37 := isAlnumByte_ne_37 c ha
        have e : urlencodeup (c :: rest) = c :: urlencodeup rest := by
          simp [urlencodeup, ha]
        have e2 : percentDecode (c :: urlencodeup rest) =
            c :: percentDecode (urlencodeup rest) :=
          percentDecode_copy c (urlencodeup rest) h37
        constructor
        · rw [e, List.all_cons]
          have hall : isUrlAllowedByte c = true := by
            simp only [isUrlAllowedByte, decide_eq_true_eq]
            exact Or.inl ha
          rw [hall, iha]
          rfl
        · rw [e, e2, ihd]
      · have hdiv : c / 16 < 16 := by omega
        have hmod : c % 16 < 16 := by omega
        have e : urlencodeup (c :: rest) =
            37 :: hexDigitUpper (c / 16) :: hexDigitUpper (c % 16) :: urlencodeup rest := by
          simp [urlencodeup, ha]
        constructor
        · rw [e, List.all_cons, List.all_cons, List.all_cons]
          rw [hexDigitUpper_allowed _ hdiv, hexDigitUpper_allowed _ hmod, iha]
          decide
        · rw [e, percentDecode_esc, hexVal_hexDigitUpper _ hdiv, hexVal_hexDigitUpper _ hmod, ihd]
          have hce : c / 16 * 16 + c % 16 = c := by omega
          rw [hce]

/-- C7, witness: the theorem applied to the bytes 97, 46, 255
(`a`, `.`, and a non-ASCII byte). -/
theorem urlencodeup_charset_roundtrip_witness :
    (urlencodeup [97, 46, 255]).all isUrlAllowedByte = true
    ∧ percentDecode (urlencodeup [97, 46, 255]) = [97, 46, 255] := by
  exact urlencodeup_charset_roundtrip [97, 46, 255] (by decide)

/-! ## Claim C8 -/

/-- C8, counterexample to the claim as stated: the Location target
`http` matches `^http` case-insensitively, yet `_resolveLocationPath`
leaves the host header untouched (the claim says it is replaced by the
target), because `_pathType` only classifies a path as URI when its
length exceeds 4, so `http` itself is resolved as RELATIVE. -/
theorem resolveLocationPath_http_counterexample :
    startsWithHttpCI "http".data = true
    ∧ (_resolveLocationPath "http".data cfgDefault).hostHeader = cfgDefault.hostHeader
    ∧ ¬ cfgDefault.hostHeader = "http".data := by
  exact ⟨by decide, by decide, by decide⟩

/-- C8, amended.  `_resolveLocationPath` first truncates the Location
target at its first `?`; then a target beginning with `/` replaces
`resourcePath` with the truncated target; a target of length at least 5
whose first four bytes match `http` case-insensitively replaces both
`hostHeader` and `resourcePath` with the entire truncated target; and
every other target — the empty target and the bare `http` included — is
resolved as RELATIVE, which moves the old `resourcePath` into
`resourcePathOld` and installs the merged path (so an empty or absent
target does not leave the configuration unchanged; only a NULL target,
which the caller already filters out, would).  -/
theorem resolveLocationPath_amended (loc : CStr) (cfg : ModuleDataT) :
    ((loc.takeWhile (fun c => ¬ c = '?')).head? = some '/' →
        _resolveLocationPath loc cfg =
          { cfg with resourcePath := some (loc.takeWhile (fun c => ¬ c = '?')) })
    ∧ (¬ (loc.takeWhile (fun c => ¬ c = '?')).head? = some '/' →
        4 < (loc.takeWhile (fun c => ¬ c = '?')).length →
        lowerEq ((loc.takeWhile (fun c => ¬ c = '?')).take 4) "http".data = true →
        _resolveLocationPath loc cfg =
          { cfg with hostHeader := loc.takeWhile (fun c => ¬ c = '?')
                   , resourcePath := some (loc.takeWhile (fun c => ¬ c = '?')) })
    ∧ (¬ (loc.takeWhile (fun c => ¬ c = '?')).head? = some '/' →
        ¬ (4 < (loc.takeWhile (fun c => ¬ c = '?')).length ∧
           lowerEq ((loc.takeWhile (fun c => ¬ c = '?')).take 4) "http".data = true) →
        _resolveLocationPath loc cfg =
          { cfg with resourcePathOld := cfg.resourcePath
                   , resourcePath := some (resolvePath (cfg.resourcePath.getD [])
                       (loc.takeWhile (fun c => ¬ c = '?'))) }) := by
  refine ⟨fun h1 => ?_, fun h1 h2 h3 => ?_, fun h1 h2 => ?_⟩
  · have hpt : _pathType (loc.takeWhile (fun c => ¬ c = '?')) = PATHTYPE_ABSOLUTE := by
      unfold _pathType
      rw [if_pos h1]
    unfold _resolveLocationPath
    simp only [hpt]
  · have hpt : _pathType (loc.takeWhile (fun c => ¬ c = '?')) = PATHTYPE_URI := by
      unfold _pathType
      rw [if_neg h1, if_pos ⟨h2, h3⟩]
    unfold _resolveLocationPath
    simp only [hpt]
  · have hpt : _pathType (loc.takeWhile (fun c => ¬ c = '?')) = PATHTYPE_RELATIVE := by
      unfold _pathType
      rw [if_neg h1, if_neg h2]
    unfold _resolveLocationPath
    simp only [hpt]

/-- C8, witness: the amended theorem applied to the target `/new?q`
(truncated at `?`, classified ABSOLUTE). -/
theorem resolveLocationPath_amended_witness :
    _resolveLocationPath "/new?q".data cfgDefault =
      { cfgDefault with
          resourcePath := some ("/new?q".data.takeWhile (fun c => ¬ c = '?')) } := by
  exact (resolveLocationPath_amended "/new?q".data cfgDefault).1 (by decide)

/-! ## Helper lemmas about the tryLogin branches -/

theorem resolveLocationPath_formType (loc : CStr) (cfg : ModuleDataT) :
    (_resolveLocationPath loc cfg).formType = cfg.formType := by
  unfold _resolveLocationPath
  generalize loc.takeWhile (fun c => ¬ c = '?') = t
  cases h : _pathType t <;> simp [h]

theorem resolveLocationPath_changed (loc : CStr) (cfg : ModuleDataT) :
    (_resolveLocationPath loc cfg).changedRequestType = cfg.changedRequestType := by
  unfold _resolveLocationPath
  generalize loc.takeWhile (fun c => ¬ c = '?') = t
  cases h : _pathType t <;> simp [h]

theorem resolveLocationPath_resourcePathOld (loc : CStr) (cfg : ModuleDataT) :
    (_resolveLocationPath loc cfg).resourcePathOld =
      (if _pathType (loc.takeWhile (fun c => ¬ c = '?')) = PATHTYPE_RELATIVE
       then cfg.resourcePath else cfg.resourcePathOld) := by
  unfold _resolveLocationPath
  generalize loc.takeWhile (fun c => ¬ c = '?') = t
  cases h : _pathType t <;> simp [h]

theorem redirectDemote_eq_of_not (st : HttpStatusCodeT) (cfg : ModuleDataT)
    (h : ¬ (st = HTTP_MOVED_PERMANENTLY ∨ st = HTTP_FOUND)) :
    redirectDemote st cfg = cfg := by
  unfold redirectDemote
  rw [if_neg (fun hc => h hc.2)]

theorem redirectDemote_resourcePathOld (st : HttpStatusCodeT) (cfg : ModuleDataT) :
    (redirectDemote st cfg).resourcePathOld = cfg.resourcePathOld := by
  unfold redirectDemote
  split <;> rfl

theorem redirectDemote_changed (st : HttpStatusCodeT) (cfg : ModuleDataT) :
    (redirectDemote st cfg).changedRequestType =
      (if cfg.formType = FORM_POST ∧ (st = HTTP_MOVED_PERMANENTLY ∨ st = HTTP_FOUND)
       then true else cfg.changedRequestType) := by
  unfold redirectDemote
  split <;> rfl

theorem tryLogin_unknown_eq (cfg : ModuleDataT) (l p : CStr) (sendOk : Bool)
    (recv : List CStr) (hU : cfg.formType = FORM_UNKNOWN) :
    tryLogin cfg l p sendOk recv = ⟨cfg, MSTATE_EXITING, none⟩ := by
  simp [tryLogin, hU]

theorem tryLogin_sendFail_eq (cfg : ModuleDataT) (l p : CStr) (recv : List CStr)
    (hU : ¬ cfg.formType = FORM_UNKNOWN) :
    tryLogin cfg l p false recv =
      ⟨cfg, MSTATE_EXITING, some (p, LOGIN_RESULT_UNKNOWN)⟩ := by
  simp [tryLogin, hU]

theorem tryLogin_noData_eq (cfg : ModuleDataT) (l p : CStr) (recv : List CStr)
    (hU : ¬ cfg.formType = FORM_UNKNOWN) (hr : recv.head? = none) :
    tryLogin cfg l p true recv =
      ⟨cfg, MSTATE_EXITING, some (p, LOGIN_RESULT_UNKNOWN)⟩ := by
  simp [tryLogin, hU, hr]

theorem tryLogin_parseErr_eq (cfg : ModuleDataT) (l p : CStr) (recv : List CStr)
    (c0 : CStr) (hU : ¬ cfg.formType = FORM_UNKNOWN) (hr : recv.head? = some c0)
    (hpe : parseHttpStatusCode (some c0) = HTTP_STATUS_PARSE_ERR) :
    tryLogin cfg l p true recv = ⟨cfg, MSTATE_EXITING, none⟩ := by
  simp [tryLogin, hU, hr, hpe]

theorem tryLogin_ok_eq (cfg : ModuleDataT) (l p : CStr) (recv : List CStr)
    (c0 : CStr) (hU : ¬ cfg.formType = FORM_UNKNOWN) (hr : recv.head? = some c0)
    (hok : parseHttpStatusCode (some c0) = HTTP_OK) :
    tryLogin cfg l p true recv = tryLoginOk cfg p recv := by
  simp [tryLogin, hU, hr, hok]

theorem tryLogin_redirect_eq (cfg : ModuleDataT) (l p : CStr) (recv : List CStr)
    (c0 : CStr) (st : HttpStatusCodeT) (hU : ¬ cfg.formType = FORM_UNKNOWN)
    (hr : recv.head? = some c0) (hst : parseHttpStatusCode (some c0) = st)
    (hred : st = HTTP_MOVED_PERMANENTLY ∨ st = HTTP_FOUND ∨
            st = HTTP_TEMPORARY_REDIRECT ∨ st = HTTP_PERMANENT_REDIRECT) :
    tryLogin cfg l p true recv = tryLoginRedirect cfg p st c0 := by
  rcases hred with h | h | h | h <;> subst h <;> simp [tryLogin, hU, hr, hst]

theorem tryLoginRedirect_preserve (cfg : ModuleDataT) (p : CStr)
    (st : HttpStatusCodeT) (c0 : CStr)
    (hst : ¬ (st = HTTP_MOVED_PERMANENTLY ∨ st = HTTP_FOUND)) :
    (tryLoginRedirect cfg p st c0).cfg.formType = cfg.formType
    ∧ (tryLoginRedirect cfg p st c0).cfg.changedRequestType = cfg.changedRequestType := by
  unfold tryLoginRedirect
  cases hloc : findLocationHeaderValue c0 with
  | none => exact ⟨rfl, rfl⟩
  | some loc =>
      simp only [redirectDemote_eq_of_not _ _ hst, appendCookies]
      exact ⟨resolveLocationPath_formType loc cfg, resolveLocationPath_changed loc cfg⟩

theorem tryLoginRedirect_demote (cfg : ModuleDataT) (p : CStr)
    (st : HttpStatusCodeT) (c0 : CStr)
    (hst : st = HTTP_MOVED_PERMANENTLY ∨ st = HTTP_FOUND) :
    ((tryLoginRedirect cfg p st c0).cfg.formType = cfg.formType
      ∧ (tryLoginRedirect cfg p st c0).cfg.changedRequestType = cfg.changedRequestType)
    ∨ (cfg.formType = FORM_POST ∧ (tryLoginRedirect cfg p st c0).cfg.formType = FORM_GET
      ∧ (tryLoginRedirect cfg p st c0).cfg.changedRequestType = true) := by
  unfold tryLoginRedirect
  cases hloc : findLocationHeaderValue c0 with
  | none => exact Or.inl ⟨rfl, rfl⟩
  | some loc =>
      by_cases hp : cfg.formType = FORM_POST
      · right
        refine ⟨hp, ?_, ?_⟩ <;>
          simp [redirectDemote, appendCookies, resolveLocationPath_formType, hp, hst]
      · left
        constructor <;>
          simp [redirectDemote, appendCookies, resolveLocationPath_formType,
            resolveLocationPath_changed, hp]

theorem denyScanLoop_eq_any (signal : CStr) (bufs : List CStr) :
    denyScanLoop signal bufs =
      (bufs.takeWhile (fun b => !(b.isEmpty))).any (fun b => containsCI b signal) := by
  induction bufs with
  | nil => rfl
  | cons b t ih =>
      by_cases hb : b = []
      · subst hb
        simp [denyScanLoop, List.takeWhile_cons]
      · have hbe : b.isEmpty = false := by
          simpa [List.isEmpty_iff] using hb
        by_cases hc : containsCI b signal = true
        · simp [denyScanLoop, hb, hc, List.takeWhile_cons, hbe]
        · have hc2 : containsCI b signal = false := by
            simpa using hc
          simp [denyScanLoop, hb, hc2, List.takeWhile_cons, hbe, ih]

theorem tryLoginRedirect_stash (cfg : ModuleDataT) (p : CStr) (st : HttpStatusCodeT)
    (c0 loc : CStr) (hloc : findLocationHeaderValue c0 = some loc) :
    (tryLoginRedirect cfg p st c0).cfg.resourcePathOld =
      (if _pathType (loc.takeWhile (fun c => ¬ c = '?')) = PATHTYPE_RELATIVE
       then cfg.resourcePath else cfg.resourcePathOld)
    ∧ (tryLoginRedirect cfg p st c0).cfg.changedRequestType =
      (if cfg.formType = FORM_POST ∧ (st = HTTP_MOVED_PERMANENTLY ∨ st = HTTP_FOUND)
       then true else cfg.changedRequestType) := by
  constructor
  · simp only [tryLoginRedirect, hloc, redirectDemote_resourcePathOld, appendCookies]
    exact resolveLocationPath_resourcePathOld loc cfg
  · simp only [tryLoginRedirect, hloc, redirectDemote_changed, appendCookies]
    rw [resolveLocationPath_formType, resolveLocationPath_changed]

theorem restoreAfterRedirect_formType (cfg : ModuleDataT) :
    (restoreAfterRedirect cfg).formType = FORM_POST
    ∨ (restoreAfterRedirect cfg).formType = cfg.formType := by
  unfold restoreAfterRedirect
  split
  · exact Or.inl rfl
  · exact Or.inr rfl

theorem tryLoginRedirect_formType_ne (cfg : ModuleDataT) (p : CStr)
    (st : HttpStatusCodeT) (c0 : CStr) (h : ¬ cfg.formType = FORM_UNKNOWN) :
    ¬ (tryLoginRedirect cfg p st c0).cfg.formType = FORM_UNKNOWN := by
  unfold tryLoginRedirect
  cases hloc : findLocationHeaderValue c0 with
  | none => exact h
  | some loc =>
      simp only []
      unfold redirectDemote
      split
      · intro hcon
        simp at hcon
      · intro hcon
        apply h
        rw [← resolveLocationPath_formType loc cfg]
        exact hcon

theorem tryLogin_other_eq (cfg : ModuleDataT) (l p : CStr) (recv : List CStr)
    (c0 : CStr) (st : HttpStatusCodeT) (hU : ¬ cfg.formType = FORM_UNKNOWN)
    (hr : recv.head? = some c0) (hst : parseHttpStatusCode (some c0) = st)
    (h1 : ¬ st = HTTP_STATUS_PARSE_ERR) (h2 : ¬ st = HTTP_OK)
    (h3 : ¬ (st = HTTP_MOVED_PERMANENTLY ∨ st = HTTP_FOUND ∨
             st = HTTP_TEMPORARY_REDIRECT ∨ st = HTTP_PERMANENT_REDIRECT)) :
    tryLogin cfg l p true recv =
      ⟨cfg, MSTATE_EXITING, some (p, LOGIN_RESULT_UNKNOWN)⟩ := by
  simp [tryLogin, hU, hr, hst, h1, h2, h3]

theorem tryLogin_formType_known (cfg : ModuleDataT) (l p : CStr) (sendOk : Bool)
    (recv : List CStr) (h : ¬ cfg.formType = FORM_UNKNOWN) :
    ¬ (tryLogin cfg l p sendOk recv).cfg.formType = FORM_UNKNOWN := by
  cases sendOk with
  | false =>
      rw [tryLogin_sendFail_eq cfg l p recv h]
      exact h
  | true =>
      cases hr : recv.head? with
      | none =>
          rw [tryLogin_noData_eq cfg l p recv h hr]
          exact h
      | some c0 =>
          cases hps : parseHttpStatusCode (some c0)
          case HTTP_STATUS_PARSE_ERR =>
              rw [tryLogin_parseErr_eq cfg l p recv c0 h hr hps]
              exact h
          case HTTP_OK =>
              rw [tryLogin_ok_eq cfg l p recv c0 h hr hps]
              intro hcon
              have hco : (restoreAfterRedirect cfg).formType = FORM_UNKNOWN := hcon
              rcases restoreAfterRedirect_formType cfg with h' | h'
              · rw [h'] at hco
                exact absurd hco (by decide)
              · rw [h'] at hco
                exact h hco
          case HTTP_MOVED_PERMANENTLY =>
              rw [tryLogin_redirect_eq cfg l p recv c0 _ h hr hps (by decide)]
              exact tryLoginRedirect_formType_ne cfg p _ c0 h
          case HTTP_FOUND =>
              rw [tryLogin_redirect_eq cfg l p recv c0 _ h hr hps (by decide)]
              exact tryLoginRedirect_formType_ne cfg p _ c0 h
          case HTTP_TEMPORARY_REDIRECT =>
              rw [tryLogin_redirect_eq cfg l p recv c0 _ h hr hps (by decide)]
              exact tryLoginRedirect_formType_ne cfg p _ c0 h
          case HTTP_PERMANENT_REDIRECT =>
              rw [tryLogin_redirect_eq cfg l p recv c0 _ h hr hps (by decide)]
              exact tryLoginRedirect_formType_ne cfg p _ c0 h
          all_goals
            rw [tryLogin_other_eq cfg l p recv c0 _ h hr hps (by decide) (by decide)
              (by decide)]
            exact h

theorem initializeConfig_formType (opts : OptionsT) (host : CStr) (port : Nat)
    (h : FormDataWF opts = true) :
    (initializeConfig opts host port).formType = FORM_POST
    ∨ (initializeConfig opts host port).formType = FORM_GET := by
  cases hfd : opts.formData with
  | none => simp [initializeConfig, hfd]
  | some fd =>
      simp only [FormDataWF, hfd, Option.isSome_iff_exists] at h
      obtain ⟨⟨method, r1⟩, hsp⟩ := h
      cases h2 : strtokSplit ['&'] r1 with
      | none => simp [initializeConfig, hfd, hsp, h2]
      | some ukr2 =>
          obtain ⟨uk, r2⟩ := ukr2
          cases h3 : strtokSplit ['&'] r2 with
          | none => simp [initializeConfig, hfd, hsp, h2, h3]
          | some pkr3 =>
              obtain ⟨pk, r3⟩ := pkr3
              by_cases hpost : lowerEq method "post".data = true
              · cases h4 : strtokSplit [] r3 with
                | none => simp [initializeConfig, hfd, hsp, h2, h3, h4, hpost]
                | some fr5 => simp [initializeConfig, hfd, hsp, h2, h3, h4, hpost]
              · by_cases hget : lowerEq method "get".data = true
                · cases h4 : strtokSplit [] r3 with
                  | none => simp [initializeConfig, hfd, hsp, h2, h3, h4, hpost, hget]
                  | some fr5 => simp [initializeConfig, hfd, hsp, h2, h3, h4, hpost, hget]
                · cases h4 : strtokSplit [] r3 with
                  | none => simp [initializeConfig, hfd, hsp, h2, h3, h4, hpost, hget]
                  | some fr5 => simp [initializeConfig, hfd, hsp, h2, h3, h4, hpost, hget]

theorem reachableConfig_formType (cfg : ModuleDataT) (h : ReachableConfig cfg) :
    ¬ cfg.formType = FORM_UNKNOWN := by
  obtain ⟨cfg0, ⟨opts, host, port, hwf, hinit⟩, hsteps⟩ := h
  have h0 : ¬ cfg0.formType = FORM_UNKNOWN := by
    subst hinit
    rcases initializeConfig_formType opts host port hwf with h' | h' <;> rw [h'] <;> decide
  induction hsteps with
  | refl => exact h0
  | tail hab hbc ih =>
      obtain ⟨l, p, s, r, heq⟩ := hbc
      rw [← heq]
      exact tryLogin_formType_known _ l p s r ih

/-! ## Claim C1 -/

/-- C1 (code bug).  When parsing the first response buffer yields
HTTP_STATUS_PARSE_ERR (here: `BADLINE`, which has no space), `tryLogin`
returns MSTATE_EXITING without calling `setPassResult`: the record field
is `none`, so the host is left without a verdict for the password
`secret`.  Every sibling terminal path (send failure, no data, missing
Location header, 4xx, unknown status) records LOGIN_RESULT_UNKNOWN
through `_setPasswordHelper`, and the spec (4.H step 3 and section 7)
requires the same here, so the missing call is a slip in the code. -/
theorem tryLogin_parseErr_no_record :
    tryLogin cfgDefault "admin".data "secret".data true recvBadLine =
      ⟨cfgDefault, MSTATE_EXITING, none⟩ := by
  decide

/-! ## Claim C3 -/

/-- C3.  For every response processed by `tryLogin`: a 307 or 308
status never changes `formType`; a 301 or 302 status either leaves both
`formType` and `changedRequestType` unchanged, or — exactly when the
current method is POST — demotes `formType` to GET and sets
`changedRequestType`; GET is never changed to POST by a redirect. -/
theorem tryLogin_redirect_methodMutation (cfg : ModuleDataT) (l p : CStr)
    (sendOk : Bool) (recv : List CStr) :
    ((parseHttpStatusCode recv.head? = HTTP_TEMPORARY_REDIRECT ∨
      parseHttpStatusCode recv.head? = HTTP_PERMANENT_REDIRECT) →
      (tryLogin cfg l p sendOk recv).cfg.formType = cfg.formType)
    ∧ ((parseHttpStatusCode recv.head? = HTTP_MOVED_PERMANENTLY ∨
        parseHttpStatusCode recv.head? = HTTP_FOUND) →
      ((tryLogin cfg l p sendOk recv).cfg.formType = cfg.formType ∧
        (tryLogin cfg l p sendOk recv).cfg.changedRequestType = cfg.changedRequestType)
      ∨ (cfg.formType = FORM_POST ∧
         (tryLogin cfg l p sendOk recv).cfg.formType = FORM_GET ∧
         (tryLogin cfg l p sendOk recv).cfg.changedRequestType = true)) := by
  constructor
  · intro h
    by_cases hU : cfg.formType = FORM_UNKNOWN
    · rw [tryLogin_unknown_eq cfg l p sendOk recv hU]
    · cases sendOk with
      | false => rw [tryLogin_sendFail_eq cfg l p recv hU]
      | true =>
          cases hr : recv.head? with
          | none =>
              rw [hr] at h
              exact absurd h (by decide)
          | some c0 =>
              rw [hr] at h
              rcases h with h | h
              · rw [tryLogin_redirect_eq cfg l p recv c0 _ hU hr h (by decide)]
                exact (tryLoginRedirect_preserve cfg p _ c0 (by decide)).1
              · rw [tryLogin_redirect_eq cfg l p recv c0 _ hU hr h (by decide)]
                exact (tryLoginRedirect_preserve cfg p _ c0 (by decide)).1
  · intro h
    by_cases hU : cfg.formType = FORM_UNKNOWN
    · rw [tryLogin_unknown_eq cfg l p sendOk recv hU]
      exact Or.inl ⟨rfl, rfl⟩
    · cases sendOk with
      | false =>
          rw [tryLogin_sendFail_eq cfg l p recv hU]
          exact Or.inl ⟨rfl, rfl⟩
      | true =>
          cases hr : recv.head? with
          | none =>
              rw [hr] at h
              exact absurd h (by decide)
          | some c0 =>
              rw [hr] at h
              rcases h with h | h
              · rw [tryLogin_redirect_eq cfg l p recv c0 _ hU hr h (by decide)]
                exact tryLoginRedirect_demote cfg p _ c0 (by decide)
              · rw [tryLogin_redirect_eq cfg l p recv c0 _ hU hr h (by decide)]
                exact tryLoginRedirect_demote cfg p _ c0 (by decide)

/-- C3, witness: the theorem applied to the default POST configuration
receiving a 302 with an absolute Location. -/
theorem tryLogin_redirect_methodMutation_witness :
    ((tryLogin cfgDefault "u".data "p".data true recv302).cfg.formType =
        cfgDefault.formType ∧
      (tryLogin cfgDefault "u".data "p".data true recv302).cfg.changedRequestType =
        cfgDefault.changedRequestType)
    ∨ (cfgDefault.formType = FORM_POST ∧
       (tryLogin cfgDefault "u".data "p".data true recv302).cfg.formType = FORM_GET ∧
       (tryLogin cfgDefault "u".data "p".data true recv302).cfg.changedRequestType =
         true) := by
  exact (tryLogin_redirect_methodMutation cfgDefault "u".data "p".data true recv302).2
    (Or.inr (by decide))

/-! ## Claim C4 -/

/-- C4.  A 200 OK received while `changedRequestType` is set clears it,
restores FORM_POST, moves `resourcePathOld` back into `resourcePath`
(leaving `resourcePathOld` absent), and empties the cookie jar, and the
round-trip then proceeds to the deny-signal scan (returning
MSTATE_NEW). -/
theorem tryLogin_ok_restores (cfg : ModuleDataT) (l p : CStr) (recv : List CStr)
    (hU : ¬ cfg.formType = FORM_UNKNOWN) (hch : cfg.changedRequestType = true)
    (hok : parseHttpStatusCode recv.head? = HTTP_OK) :
    (tryLogin cfg l p true recv).cfg.changedRequestType = false
    ∧ (tryLogin cfg l p true recv).cfg.formType = FORM_POST
    ∧ (tryLogin cfg l p true recv).cfg.resourcePath = cfg.resourcePathOld
    ∧ (tryLogin cfg l p true recv).cfg.resourcePathOld = none
    ∧ (tryLogin cfg l p true recv).cfg.cookieJar = []
    ∧ (tryLogin cfg l p true recv).ret = MSTATE_NEW := by
  cases hr : recv.head? with
  | none =>
      rw [hr] at hok
      exact absurd hok (by decide)
  | some c0 =>
      rw [hr] at hok
      rw [tryLogin_ok_eq cfg l p recv c0 hU hr hok]
      unfold tryLoginOk restoreAfterRedirect
      rw [if_pos hch]
      exact ⟨rfl, rfl, rfl, rfl, rfl, rfl⟩

/-- C4, witness: the theorem applied to a mid-chain configuration
(`changedRequestType` set, stashed path `/orig`, non-empty jar)
receiving a plain 200. -/
theorem tryLogin_ok_restores_witness :
    (tryLogin cfgChanged "u".data "p".data true recv200).cfg.changedRequestType = false
    ∧ (tryLogin cfgChanged "u".data "p".data true recv200).cfg.formType = FORM_POST
    ∧ (tryLogin cfgChanged "u".data "p".data true recv200).cfg.resourcePath =
        cfgChanged.resourcePathOld
    ∧ (tryLogin cfgChanged "u".data "p".data true recv200).cfg.resourcePathOld = none
    ∧ (tryLogin cfgChanged "u".data "p".data true recv200).cfg.cookieJar = []
    ∧ (tryLogin cfgChanged "u".data "p".data true recv200).ret = MSTATE_NEW := by
  exact tryLogin_ok_restores cfgChanged "u".data "p".data recv200
    (by decide) (by decide) (by decide)

/-! ## Claim C5 -/

/-- C5, counterexample to the claimed invariant: the state reached from
the default initial configuration after one 307 round-trip whose
Location target `foo` is RELATIVE has a non-absent `resourcePathOld`
while `changedRequestType` is still false — `_resolveLocationPath`
stashes the path for every RELATIVE target, but `changedRequestType` is
only set for 301/302 received on a POST. -/
theorem resourcePathOld_iff_counterexample :
    ReachableConfig cfgStashed
    ∧ cfgStashed.resourcePathOld.isSome = true
    ∧ cfgStashed.changedRequestType = false := by
  refine ⟨⟨cfgDefault,
    ⟨⟨none, none, none, none, none⟩, "example.com".data, 80, rfl, rfl⟩,
    Relation.ReflTransGen.single ⟨"u".data, "p".data, true, recv307rel, rfl⟩⟩,
    by decide, by decide⟩

/-- C5, amended.  In a redirect round-trip, `resourcePathOld` is
overwritten with the old `resourcePath` exactly when the query-stripped
Location target is classified RELATIVE (for ABSOLUTE and URI targets it
is left as it was), and `changedRequestType` is set exactly when the
status is 301 or 302 and the method is POST (and left unchanged
otherwise).  The two conditions are independent, so the claimed
biconditional `resourcePathOld non-absent iff changedRequestType` does
not hold across reachable states. -/
theorem redirect_stash_characterization (cfg : ModuleDataT) (l p : CStr)
    (recv : List CStr) (c0 loc : CStr) (hU : ¬ cfg.formType = FORM_UNKNOWN)
    (hr : recv.head? = some c0)
    (hst : parseHttpStatusCode (some c0) = HTTP_MOVED_PERMANENTLY ∨
           parseHttpStatusCode (some c0) = HTTP_FOUND ∨
           parseHttpStatusCode (some c0) = HTTP_TEMPORARY_REDIRECT ∨
           parseHttpStatusCode (some c0) = HTTP_PERMANENT_REDIRECT)
    (hloc : findLocationHeaderValue c0 = some loc) :
    (tryLogin cfg l p true recv).cfg.resourcePathOld =
      (if _pathType (loc.takeWhile (fun c => ¬ c = '?')) = PATHTYPE_RELATIVE
       then cfg.resourcePath else cfg.resourcePathOld)
    ∧ (tryLogin cfg l p true recv).cfg.changedRequestType =
      (if cfg.formType = FORM_POST ∧
          (parseHttpStatusCode (some c0) = HTTP_MOVED_PERMANENTLY ∨
           parseHttpStatusCode (some c0) = HTTP_FOUND)
       then true else cfg.changedRequestType) := by
  rcases hst with h | h | h | h <;>
    rw [tryLogin_redirect_eq cfg l p recv c0 _ hU hr h (by decide), h] <;>
    exact tryLoginRedirect_stash cfg p _ c0 loc hloc

/-- C5, witness: the amended theorem applied to the 307-with-relative-
Location round-trip from the default configuration. -/
theorem redirect_stash_characterization_witness :
    (tryLogin cfgDefault "u".data "p".data true recv307rel).cfg.resourcePathOld =
      (if _pathType ("foo".data.takeWhile (fun c => ¬ c = '?')) = PATHTYPE_RELATIVE
       then cfgDefault.resourcePath else cfgDefault.resourcePathOld)
    ∧ (tryLogin cfgDefault "u".data "p".data true recv307rel).cfg.changedRequestType =
      (if cfgDefault.formType = FORM_POST ∧
          (parseHttpStatusCode
              (some "HTTP/1.1 307 Temporary Redirect\r\nLocation: foo\r\n\r\n".data) =
            HTTP_MOVED_PERMANENTLY ∨
           parseHttpStatusCode
              (some "HTTP/1.1 307 Temporary Redirect\r\nLocation: foo\r\n\r\n".data) =
            HTTP_FOUND)
       then true else cfgDefault.changedRequestType) := by
  exact redirect_stash_characterization cfgDefault "u".data "p".data recv307rel
    "HTTP/1.1 307 Temporary Redirect\r\nLocation: foo\r\n\r\n".data "foo".data
    (by decide) (by decide) (Or.inr (Or.inr (Or.inl (by decide)))) (by decide)

/-! ## Claim C9 -/

/-- C9, counterexample to the claim as stated: with deny signal `200`,
the 200 response whose status-line buffer contains `200` yields a FAIL
verdict even though no buffer after the first (neither the blank
header/body separator nor the body) contains the signal — the scan
starts with the buffer holding the status line, not with the body. -/
theorem tryLogin_denyScan_counterexample :
    (tryLogin cfgDeny200 "u".data "p".data true recvDeny200).record =
      some ("p".data, LOGIN_RESULT_FAIL)
    ∧ (recvDeny200.drop 1).all (fun b => !(containsCI b cfgDeny200.denySignal)) = true := by
  exact ⟨by decide, by decide⟩

/-- C9, amended.  After a 200 OK, the deny-signal scan walks the
received buffers starting with the very first one (which contains the
status line), stopping at an empty buffer or the end of input; the
verdict is FAIL exactly when one of the scanned buffers contains
`denySignal` case-insensitively and SUCCESS otherwise; the verdict and
password are recorded and `tryLogin` returns MSTATE_NEW. -/
theorem tryLogin_denyScan_scope (cfg : ModuleDataT) (l p : CStr) (recv : List CStr)
    (c0 : CStr) (hU : ¬ cfg.formType = FORM_UNKNOWN) (hr : recv.head? = some c0)
    (hok : parseHttpStatusCode (some c0) = HTTP_OK) :
    (tryLogin cfg l p true recv).record =
      some (p,
        if (recv.takeWhile (fun b => !(b.isEmpty))).any
            (fun b => containsCI b cfg.denySignal)
        then LOGIN_RESULT_FAIL else LOGIN_RESULT_SUCCESS)
    ∧ (tryLogin cfg l p true recv).ret = MSTATE_NEW := by
  rw [tryLogin_ok_eq cfg l p recv c0 hU hr hok]
  unfold tryLoginOk
  rw [denyScanLoop_eq_any]
  exact ⟨rfl, rfl⟩

/-- C9, witness: the amended theorem applied to the default
configuration and a plain 200 response. -/
theorem tryLogin_denyScan_scope_witness :
    (tryLogin cfgDefault "u".data "p".data true recv200).record =
      some ("p".data,
        if (recv200.takeWhile (fun b => !(b.isEmpty))).any
            (fun b => containsCI b cfgDefault.denySignal)
        then LOGIN_RESULT_FAIL else LOGIN_RESULT_SUCCESS)
    ∧ (tryLogin cfgDefault "u".data "p".data true recv200).ret = MSTATE_NEW := by
  exact tryLogin_denyScan_scope cfgDefault "u".data "p".data recv200
    "HTTP/1.1 200 OK\r\n\r\n".data (by decide) (by decide) (by decide)

/-! ## Claim C10 -/

/-- C10.  The `abort()` arm of `prepareRequestParamString` (modelled as
`none`) is unreachable in every attempt round-trip: INITIALIZE always
finalizes `formType` to FORM_POST or FORM_GET (repairing FORM_UNKNOWN
and missing keys to the POST default), every configuration reachable
through `tryLogin` round-trips keeps a finalized form type, so
`prepareRequestParamString` never aborts on it; and on a FORM_UNKNOWN
configuration `_request` makes `tryLogin` exit (returning MSTATE_EXITING
with the configuration untouched) before any request string is built. -/
theorem formUnknown_abort_unreachable :
    (∀ opts host port, FormDataWF opts = true →
      ((initializeConfig opts host port).formType = FORM_POST ∨
       (initializeConfig opts host port).formType = FORM_GET))
    ∧ (∀ cfg, ReachableConfig cfg →
        ∀ l p, ¬ prepareRequestParamString cfg l p = none)
    ∧ (∀ cfg l p sendOk recv, cfg.formType = FORM_UNKNOWN →
        tryLogin cfg l p sendOk recv = ⟨cfg, MSTATE_EXITING, none⟩) := by
  refine ⟨initializeConfig_formType, fun cfg hreach l p => ?_,
    fun cfg l p s r hU => tryLogin_unknown_eq cfg l p s r hU⟩
  have hft := reachableConfig_formType cfg hreach
  cases hf : cfg.formType with
  | FORM_UNKNOWN => exact absurd hf hft
  | FORM_GET => simp [prepareRequestParamString, hf]
  | FORM_POST => simp [prepareRequestParamString, hf]

/-- C10, witness: the initialization conjunct applied to a FORM-DATA
value with an unknown method, which the repair path finalizes to
FORM_POST. -/
theorem formUnknown_abort_unreachable_witness :
    (initializeConfig ⟨none, none, some "weird?u=&p=".data, none, none⟩
        "h".data 80).formType = FORM_POST
    ∨ (initializeConfig ⟨none, none, some "weird?u=&p=".data, none, none⟩
        "h".data 80).formType = FORM_GET := by
  exact formUnknown_abort_unreachable.1
    ⟨none, none, some "weird?u=&p=".data, none, none⟩ "h".data 80 (by decide)

end WebForm
